import Mathlib

/-!
Shallow embedding of the rarduino configuration-resolution engine
(`src/lib.rs`) and verification of the frozen claims about it.

Modelling conventions:
* A filesystem path (`PathBuf`) is a list of components.  Rust compares
  `PathBuf`s component-wise with interior `.` segments normalised away, so
  `loc.join("./src")` is embedded as `loc ++ ["src"]`.
* The ambient filesystem and process environment are a `World` record of
  pure functions: `pathExists` models `Path::exists`, `readDir` models
  `fs::read_dir` (the child names, or `none` for an I/O error, which also
  covers a failing `DirEntry`), `isDir` models file-kind metadata (which
  the code never queries), `expand` models `envmnt::expand` composed with
  `PathBuf::from`, and `glob` models `glob::glob` (`none` for a pattern
  error, otherwise the matched entries, each possibly a `GlobError`).
* Rust `Result` is `Except`; `collectExcept` is the fail-fast
  `Iterator::collect::<Result<Vec<_>, _>>`.  The `todo!()` macro, which
  panics, is the `Outcome.todo` constructor of the tri-valued result of
  `try_from`.
* Paths that are not valid UTF-8 are modelled by the `utf8` flag of
  `InputPath` on the two configured home directories (`to_str` failure);
  derived paths in the model are always text, so the `ConvertFailed`
  branch inside the glob-pattern construction is unreachable in the model.
-/

namespace Rarduino

/-- A filesystem path as its list of components (Rust `PathBuf`, compared
component-wise). -/
abbrev FsPath := List String

/-- `Path::to_str` rendered with `/` separators, as used to build glob
patterns. -/
def pathToStr (p : FsPath) : String :=
  String.intercalate "/" p

/-- The four bindgen allow/block lists (`struct BindgenLists`). -/
structure BindgenLists where
  allowlist_function : List String
  allowlist_type : List String
  blocklist_function : List String
  blocklist_type : List String
deriving DecidableEq, Repr

/-- A `PathBuf` input field together with whether `to_str` succeeds on it
(a Rust `PathBuf` may hold non-UTF-8 bytes). -/
structure InputPath where
  path : FsPath
  utf8 : Bool
deriving DecidableEq, Repr

/-- The deserialized project description (`struct ConfigSerialize`). -/
structure ConfigSerialize where
  arduino_home : InputPath
  external_libraries_home : InputPath
  core_version : String
  variant : String
  avr_gcc_version : String
  arduino_libraries : List String
  external_libraries : List String
  definitions : List (String × String)
  flags : List String
  bindgen_lists : BindgenLists
deriving DecidableEq, Repr

/-- The resolved configuration (`struct Config`): include directories,
compiler binary path and the two discovered source lists.  The source
struct has exactly these four fields — none for the bindgen lists. -/
structure Config where
  includes : List FsPath
  avr_gcc : FsPath
  cpp_files : List FsPath
  c_files : List FsPath
deriving DecidableEq, Repr

/-- The closed error taxonomy (`enum ConfigError`).  `IoError`,
`GlobPatternError` and `GlobIterationError` wrap opaque foreign error
values, so they carry no payload in the model. -/
inductive ConfigError where
  | ConvertFailed (p : FsPath)
  | ArduinoHomeNoString (p : FsPath)
  | ExternalLibrariesHomeNoString (p : FsPath)
  | ArduinoHomeNoExist (p : FsPath)
  | ExternalLibrariesHomeNoExist (p : FsPath)
  | NoAvrGcc (p : FsPath)
  | MalformedLib (p : FsPath)
  | IoError
  | GlobPatternError
  | GlobIterationError
deriving DecidableEq, Repr

/-- The ambient filesystem and environment, as pure functions. -/
structure World where
  pathExists : FsPath → Bool
  readDir : FsPath → Option (List String)
  isDir : FsPath → Bool
  expand : FsPath → FsPath
  glob : String → Option (List (Except Unit FsPath))

/-- The three possible outcomes of `Config::try_from`: a value, an error,
or the `todo!()` panic. -/
inductive Outcome (ε α : Type) where
  | ok (a : α)
  | err (e : ε)
  | todo
deriving DecidableEq, Repr

/-- Whether an `Outcome` is the `ok` constructor. -/
def Outcome.isOk {ε α : Type} : Outcome ε α → Bool
  | .ok _ => true
  | _ => false

/-- Whether an `Outcome` is the `err` constructor. -/
def Outcome.isErr {ε α : Type} : Outcome ε α → Bool
  | .err _ => true
  | _ => false

/-- `fn src_root`: list the children of `loc`; the markers are the exact
child paths `loc.join("./src")` and `loc.join("./utility")` (compared by
component equality against every child path).  Both present is an error,
one present selects it, neither selects `loc` itself. -/
def src_root (w : World) (loc : FsPath) : Except ConfigError FsPath :=
  match w.readDir loc with
  | none => .error .IoError
  | some names =>
    let children : List FsPath := names.map (fun x => loc ++ [x])
    let src_path := loc ++ ["src"]
    let utility_path := loc ++ ["utility"]
    let src := children.contains src_path
    let utility := children.contains utility_path
    match src, utility with
    | true, true => .error (.MalformedLib loc)
    | true, false => .ok src_path
    | false, true => .ok utility_path
    | false, false => .ok loc

/-- Fail-fast collection of a list of fallible results, as Rust's
`.map(f).collect::<Result<Vec<_>, _>>()`. -/
def collectExcept {ε α β : Type} (f : α → Except ε β) : List α → Except ε (List β)
  | [] => .ok []
  | x :: xs =>
    match f x with
    | .error e => .error e
    | .ok y =>
      match collectExcept f xs with
      | .error e => .error e
      | .ok ys => .ok (y :: ys)

/-- `PathBuf::from(envmnt::expand(arduino_home_str, None))`. -/
def expandedArduinoHome (w : World) (v : ConfigSerialize) : FsPath :=
  w.expand v.arduino_home.path

/-- `PathBuf::from(envmnt::expand(external_libraries_home_str, None))`. -/
def expandedExternalHome (w : World) (v : ConfigSerialize) : FsPath :=
  w.expand v.external_libraries_home.path

/-- `arduino_home.join("packaged").join("arduino")`. -/
def arduinoPackagePath (w : World) (v : ConfigSerialize) : FsPath :=
  expandedArduinoHome w v ++ ["packaged", "arduino"]

/-- `arduino_package_path.join("tools").join("avr-gcc").join(avr_gcc_version)`. -/
def avrGccHome (w : World) (v : ConfigSerialize) : FsPath :=
  arduinoPackagePath w v ++ ["tools", "avr-gcc", v.avr_gcc_version]

/-- `arduino_package_path.join("hardware").join("avr").join(core_version)`. -/
def corePath (w : World) (v : ConfigSerialize) : FsPath :=
  arduinoPackagePath w v ++ ["hardware", "avr", v.core_version]

/-- `avr_gcc_home.join("bin").join("avr-gcc")`. -/
def avrGccBin (w : World) (v : ConfigSerialize) : FsPath :=
  avrGccHome w v ++ ["bin", "avr-gcc"]

/-- The fixed `arduino_includes` array: core path joined again with
`hardware/avr/<core_version>`, the variant directory, and the toolchain's
`include` directory. -/
def arduinoIncludes (w : World) (v : ConfigSerialize) : List FsPath :=
  [ corePath w v ++ ["hardware", "avr", v.core_version],
    corePath w v ++ ["variants", v.variant],
    avrGccHome w v ++ ["include"] ]

/-- `libs.iter().map(|lib| src_root(&base.join(lib))).collect()`. -/
def libraryRoots (w : World) (base : FsPath) (libs : List String) :
    Except ConfigError (List FsPath) :=
  collectExcept (fun lib => src_root w (base ++ [lib])) libs

/-- Lines 104–127 of `try_from`: the fixed includes, then the resolved
Arduino-bundled library roots, then the resolved external library roots. -/
def includeDirs (w : World) (v : ConfigSerialize) : Except ConfigError (List FsPath) :=
  match libraryRoots w (corePath w v ++ ["libraries"]) v.arduino_libraries with
  | .error e => .error e
  | .ok ard =>
    match libraryRoots w (expandedExternalHome w v) v.external_libraries with
    | .error e => .error e
    | .ok ext => .ok (arduinoIncludes w v ++ ard ++ ext)

/-- The body of the `filter_map`/`collect` pipeline inside `get_type`: a
`GlobError` entry aborts with `GlobIterationError`; a path whose final
component is exactly `main.cpp` (Rust `Path::ends_with("main.cpp")`, which
compares whole components) is skipped; every other path is kept in
order. -/
def collectEntries : List (Except Unit FsPath) → Except ConfigError (List FsPath)
  | [] => .ok []
  | .error _ :: _ => .error .GlobIterationError
  | .ok p :: rest =>
    if p.getLast? == some "main.cpp" then
      collectEntries rest
    else
      match collectEntries rest with
      | .error e => .error e
      | .ok ps => .ok (p :: ps)

/-- One iteration of the `for file in &include_dirs` loop of `get_type`:
glob `<dir>/**/<pattern>` and filter/collect the entries. -/
def globOneDir (w : World) (pattern : String) (dir : FsPath) :
    Except ConfigError (List FsPath) :=
  match w.glob (pathToStr dir ++ "/**/" ++ pattern) with
  | none => .error .GlobPatternError
  | some entries => collectEntries entries

/-- The `get_type` closure of `try_from`: accumulate the filtered glob
results of every include directory in order, failing fast.  Defined in the
source but never invoked — `todo!()` precedes any call. -/
def get_type (w : World) (include_dirs : List FsPath) (pattern : String) :
    Except ConfigError (List FsPath) :=
  match include_dirs with
  | [] => .ok []
  | d :: ds =>
    match globOneDir w pattern d with
    | .error e => .error e
    | .ok files =>
      match get_type w ds pattern with
      | .error e => .error e
      | .ok rest => .ok (files ++ rest)

/-- `impl TryFrom<ConfigSerialize> for Config`, `fn try_from`: the
`to_str` conversions, the expansion of both homes, the three existence
checks, the library-root resolution — and then `todo!()`. -/
def tryFrom (w : World) (value : ConfigSerialize) : Outcome ConfigError Config :=
  if value.arduino_home.utf8 = false then
    .err (.ArduinoHomeNoString value.arduino_home.path)
  else if value.external_libraries_home.utf8 = false then
    .err (.ExternalLibrariesHomeNoString value.external_libraries_home.path)
  else if w.pathExists (expandedArduinoHome w value) = false then
    .err (.ArduinoHomeNoExist (expandedArduinoHome w value))
  else if w.pathExists (expandedExternalHome w value) = false then
    .err (.ExternalLibrariesHomeNoExist (expandedExternalHome w value))
  else if w.pathExists (avrGccBin w value) = false then
    .err (.NoAvrGcc (avrGccBin w value))
  else
    match includeDirs w value with
    | .error e => .err e
    | .ok _ => .todo

/-- `fn compile` — an empty stub in the source. -/
def compile (_ : Config) : Unit := ()

/-! Concrete worlds and descriptions used by counterexamples and
witnesses. -/

/-- A description with the given library lists and fixed remaining
fields. -/
def mkDesc (ard ext : List String) : ConfigSerialize where
  arduino_home := ⟨["home"], true⟩
  external_libraries_home := ⟨["exthome"], true⟩
  core_version := "1.8.6"
  variant := "standard"
  avr_gcc_version := "7.3.0"
  arduino_libraries := ard
  external_libraries := ext
  definitions := []
  flags := []
  bindgen_lists := ⟨["f"], ["t"], ["bf"], ["bt"]⟩

/-- A world where every path exists, every directory is empty and every
glob matches nothing. -/
def wAll : World where
  pathExists := fun _ => true
  readDir := fun _ => some []
  isDir := fun _ => true
  expand := id
  glob := fun _ => some []

/-- A world whose library base directories hold children `src` and
`foo`. -/
def wC1 : World where
  pathExists := fun _ => true
  readDir := fun _ => some ["src", "foo"]
  isDir := fun _ => true
  expand := id
  glob := fun _ => some []

/-- A world where only the two one-component home directories exist, so
the derived avr-gcc binary path does not. -/
def wNoGcc : World where
  pathExists := fun p => decide (p.length ≤ 1)
  readDir := fun _ => some []
  isDir := fun _ => true
  expand := id
  glob := fun _ => some []

/-- A world where no path exists. -/
def wNoHome : World where
  pathExists := fun _ => false
  readDir := fun _ => some []
  isDir := fun _ => true
  expand := id
  glob := fun _ => some []

/-- A world where listing any directory named `Bad` fails with an I/O
error and every other directory is empty. -/
def wBadLib : World where
  pathExists := fun _ => true
  readDir := fun p => if p.getLast? == some "Bad" then none else some []
  isDir := fun _ => true
  expand := id
  glob := fun _ => some []

/-- A world whose library base directories hold plain files named `src`
and `utility` (`isDir` is false everywhere). -/
def wMarkerFiles : World where
  pathExists := fun _ => true
  readDir := fun _ => some ["src", "utility"]
  isDir := fun _ => false
  expand := id
  glob := fun _ => some []

/-- The same directory listings as `wMarkerFiles`, but with every child a
directory. -/
def wMarkerDirs : World where
  pathExists := fun _ => true
  readDir := fun _ => some ["src", "utility"]
  isDir := fun _ => true
  expand := id
  glob := fun _ => some []

/-- A world whose library base directories hold a plain file named `src`
next to an unrelated file. -/
def wSrcFile : World where
  pathExists := fun _ => true
  readDir := fun _ => some ["notes.txt", "src"]
  isDir := fun _ => false
  expand := id
  glob := fun _ => some []

/-- A world where every glob matches the single file `d/mymain.cpp`,
whose name merely contains `main.cpp` as a substring. -/
def wSub : World where
  pathExists := fun _ => true
  readDir := fun _ => some []
  isDir := fun _ => true
  expand := id
  glob := fun _ => some [Except.ok ["d", "mymain.cpp"]]

/-- A world where every glob matches `d/sub/util.cpp` and
`d/main.cpp`. -/
def wGlobMain : World where
  pathExists := fun _ => true
  readDir := fun _ => some []
  isDir := fun _ => true
  expand := id
  glob := fun _ => some [Except.ok ["d", "sub", "util.cpp"], Except.ok ["d", "main.cpp"]]

/-! Helper lemmas. -/

lemma contains_append_singleton (loc : FsPath) (names : List String) (s : String) :
    (names.map (fun x => loc ++ [x])).contains (loc ++ [s]) = decide (s ∈ names) := by
  simp [List.contains]

lemma collectExcept_ok_length {ε α β : Type} (f : α → Except ε β) :
    ∀ (xs : List α) (ys : List β), collectExcept f xs = .ok ys → ys.length = xs.length := by
  intro xs
  induction xs with
  | nil =>
    intro ys h
    simp only [collectExcept] at h
    cases h
    rfl
  | cons x xs ih =>
    intro ys h
    simp only [collectExcept] at h
    cases hfx : f x with
    | error e => rw [hfx] at h; cases h
    | ok y =>
      rw [hfx] at h
      cases hrest : collectExcept f xs with
      | error e => rw [hrest] at h; cases h
      | ok ys2 =>
        rw [hrest] at h
        cases h
        simp [ih ys2 hrest]

lemma collectExcept_ok_getD {ε α β : Type} (f : α → Except ε β) (da : α) (db : β) :
    ∀ (xs : List α) (ys : List β), collectExcept f xs = .ok ys →
      ∀ i, i < xs.length → f (xs.getD i da) = .ok (ys.getD i db) := by
  intro xs
  induction xs with
  | nil =>
    intro ys h i hi
    simp at hi
  | cons x xs ih =>
    intro ys h i hi
    simp only [collectExcept] at h
    cases hfx : f x with
    | error e => rw [hfx] at h; cases h
    | ok y =>
      rw [hfx] at h
      cases hrest : collectExcept f xs with
      | error e => rw [hrest] at h; cases h
      | ok ys2 =>
        rw [hrest] at h
        cases h
        cases i with
        | zero => simpa using hfx
        | succ n =>
          have hn : n < xs.length := by simpa using hi
          simpa using ih ys2 hrest n hn

lemma collectExcept_first_error {ε α β : Type} (f : α → Except ε β) (e : ε) :
    ∀ (pre : List α) (bad : α) (post : List α),
      (∀ x ∈ pre, (f x).isOk = true) → f bad = .error e →
      collectExcept f (pre ++ bad :: post) = .error e := by
  intro pre
  induction pre with
  | nil =>
    intro bad post _ hbad
    simp [collectExcept, hbad]
  | cons x xs ih =>
    intro bad post hpre hbad
    have hx : (f x).isOk = true := hpre x (List.mem_cons_self x xs)
    cases hfx : f x with
    | error e2 =>
      rw [hfx] at hx
      simp [Except.isOk, Except.toBool] at hx
    | ok y =>
      have h2 := ih bad post (fun z hz => hpre z (List.mem_cons_of_mem x hz)) hbad
      rw [List.cons_append]
      simp only [collectExcept, hfx]
      rw [h2]

lemma tryFrom_shape (w : World) (v : ConfigSerialize) :
    tryFrom w v = Outcome.todo ∨ ∃ e, tryFrom w v = Outcome.err e := by
  unfold tryFrom
  split
  · exact Or.inr ⟨_, rfl⟩
  · split
    · exact Or.inr ⟨_, rfl⟩
    · split
      · exact Or.inr ⟨_, rfl⟩
      · split
        · exact Or.inr ⟨_, rfl⟩
        · split
          · exact Or.inr ⟨_, rfl⟩
          · split
            · exact Or.inr ⟨_, rfl⟩
            · exact Or.inl rfl

lemma collectEntries_no_main :
    ∀ (es : List (Except Unit FsPath)) (ps : List FsPath),
      collectEntries es = .ok ps → ∀ p ∈ ps, (p.getLast? == some "main.cpp") = false := by
  intro es
  induction es with
  | nil =>
    intro ps h p hp
    simp only [collectEntries] at h
    cases h
    simp at hp
  | cons f rest ih =>
    intro ps h p hp
    cases f with
    | error u =>
      simp only [collectEntries] at h
      cases h
    | ok q =>
      simp only [collectEntries] at h
      by_cases hq : (q.getLast? == some "main.cpp") = true
      · rw [if_pos hq] at h
        exact ih ps h p hp
      · rw [if_neg hq] at h
        cases hrest : collectEntries rest with
        | error e => rw [hrest] at h; cases h
        | ok ps2 =>
          rw [hrest] at h
          cases h
          rcases List.mem_cons.mp hp with hpq | hp2
          · subst hpq
            exact Bool.eq_false_iff.mpr hq
          · exact ih ps2 hrest p hp2

lemma get_type_no_main (w : World) (pattern : String) :
    ∀ (dirs : List FsPath) (files : List FsPath),
      get_type w dirs pattern = .ok files →
      ∀ p ∈ files, (p.getLast? == some "main.cpp") = false := by
  intro dirs
  induction dirs with
  | nil =>
    intro files h p hp
    simp only [get_type] at h
    cases h
    simp at hp
  | cons d ds ih =>
    intro files h p hp
    simp only [get_type] at h
    cases hdir : globOneDir w pattern d with
    | error e => rw [hdir] at h; cases h
    | ok fs =>
      rw [hdir] at h
      cases hrest : get_type w ds pattern with
      | error e => rw [hrest] at h; cases h
      | ok rest =>
        rw [hrest] at h
        cases h
        rcases List.mem_append.mp hp with hp1 | hp2
        · simp only [globOneDir] at hdir
          cases hglob : w.glob (pathToStr d ++ "/**/" ++ pattern) with
          | none => rw [hglob] at hdir; cases hdir
          | some entries =>
            rw [hglob] at hdir
            exact collectEntries_no_main entries fs hdir p hp1
        · exact ih rest hrest p hp2

/-! The claims. -/

/-- C1: for every library base directory, `src_root` follows the fixed
decision table over the presence of immediate children named exactly
`src` and `utility`: both present fails with `MalformedLib` carrying the
base path; only `src` resolves to `<base>/src`; only `utility` to
`<base>/utility`; neither to the base directory itself. -/
theorem src_root_decision_table (w : World) (loc : FsPath) (names : List String)
    (h : w.readDir loc = some names) :
    ("src" ∈ names ∧ "utility" ∈ names →
        src_root w loc = .error (.MalformedLib loc)) ∧
    ("src" ∈ names ∧ "utility" ∉ names →
        src_root w loc = .ok (loc ++ ["src"])) ∧
    ("src" ∉ names ∧ "utility" ∈ names →
        src_root w loc = .ok (loc ++ ["utility"])) ∧
    ("src" ∉ names ∧ "utility" ∉ names →
        src_root w loc = .ok loc) := by
  refine ⟨?_, ?_, ?_, ?_⟩ <;> rintro ⟨h1, h2⟩ <;>
    simp only [src_root, h, contains_append_singleton] <;>
    simp [h1, h2]

theorem src_root_decision_table_witness :
    src_root wC1 ["lib"] = .ok ["lib", "src"] :=
  (src_root_decision_table wC1 ["lib"] ["src", "foo"] rfl).2.1 ⟨by decide, by decide⟩

/-- C2 counterexample: on a description and filesystem on which every
validation succeeds, `try_from` neither returns a configuration nor an
error — it reaches the `todo!()` panic, so an outcome other than
`Ok`/`Err` is possible. -/
theorem tryFrom_panic_counterexample :
    (tryFrom wAll (mkDesc [] [])).isOk = false ∧
    (tryFrom wAll (mkDesc [] [])).isErr = false ∧
    tryFrom wAll (mkDesc [] []) = Outcome.todo :=
  ⟨rfl, rfl, rfl⟩

/-- C2 amended: resolution either returns a single `ConfigError` or
reaches the unimplemented `todo!()` panic; it never returns a resolved
configuration. -/
theorem tryFrom_err_or_todo (w : World) (v : ConfigSerialize) :
    tryFrom w v = Outcome.todo ∨ ∃ e, tryFrom w v = Outcome.err e :=
  tryFrom_shape w v

/-- C3: on every input on which all validation succeeds (both expanded
homes exist, the derived avr-gcc binary exists, and every library root
resolves), `try_from` reaches the `todo!()` panic and never returns `Ok`;
the result is moreover independent of the glob primitive, so the
source-discovery closure `get_type` is never consulted. -/
theorem tryFrom_reaches_todo (w : World) (v : ConfigSerialize) (l : List FsPath)
    (g : String → Option (List (Except Unit FsPath)))
    (h1 : v.arduino_home.utf8 = true)
    (h2 : v.external_libraries_home.utf8 = true)
    (h3 : w.pathExists (expandedArduinoHome w v) = true)
    (h4 : w.pathExists (expandedExternalHome w v) = true)
    (h5 : w.pathExists (avrGccBin w v) = true)
    (h6 : includeDirs w v = .ok l) :
    tryFrom w v = Outcome.todo ∧
    tryFrom { w with glob := g } v = Outcome.todo := by
  constructor
  · simp [tryFrom, h1, h2, h3, h4, h5, h6]
  · rw [show tryFrom { w with glob := g } v = tryFrom w v from rfl]
    simp [tryFrom, h1, h2, h3, h4, h5, h6]

theorem tryFrom_reaches_todo_witness :
    tryFrom wAll (mkDesc [] []) = Outcome.todo ∧
    tryFrom { wAll with glob := fun _ => none } (mkDesc [] []) = Outcome.todo :=
  tryFrom_reaches_todo wAll (mkDesc [] [])
    (arduinoIncludes wAll (mkDesc [] []) ++ [] ++ []) (fun _ => none)
    rfl rfl rfl rfl rfl rfl

/-- C4 counterexample: a description whose bindgen lists are nonempty, on
a filesystem where all validation succeeds, yet resolution produces no
configuration at all (the `Config` struct has no bindgen-list fields and
`try_from` never returns `Ok`), so the lists are not present in any
resolved configuration. -/
theorem bindgen_lists_counterexample :
    (tryFrom wAll (mkDesc ["Wire"] ["Foo"])).isOk = false ∧
    (mkDesc ["Wire"] ["Foo"]).bindgen_lists.allowlist_function = ["f"] :=
  ⟨rfl, rfl⟩

/-- C4 amended: the resolved-configuration type carries no symbol-filter
lists and `try_from` never returns one, so the four bindgen lists of the
description are never forwarded into a resolved configuration. -/
theorem tryFrom_never_ok (w : World) (v : ConfigSerialize) :
    (tryFrom w v).isOk = false := by
  rcases tryFrom_shape w v with h | ⟨e, h⟩ <;> rw [h] <;> rfl

/-- C5: whenever the include list is assembled, it is exactly the core
path joined again with `hardware/avr/<core_version>`, then the variant
directory, then the toolchain's `include` directory, then the resolved
root of each Arduino-bundled library in description order, then of each
external library in description order; its length is 3 plus the two
library counts. -/
theorem includeDirs_exact_order (w : World) (v : ConfigSerialize)
    (ard ext : List FsPath)
    (hard : libraryRoots w (corePath w v ++ ["libraries"]) v.arduino_libraries = .ok ard)
    (hext : libraryRoots w (expandedExternalHome w v) v.external_libraries = .ok ext) :
    includeDirs w v = .ok
      ([ corePath w v ++ ["hardware", "avr", v.core_version],
         corePath w v ++ ["variants", v.variant],
         avrGccHome w v ++ ["include"] ] ++ ard ++ ext) ∧
    ard.length = v.arduino_libraries.length ∧
    ext.length = v.external_libraries.length ∧
    (∀ i, i < v.arduino_libraries.length →
      src_root w ((corePath w v ++ ["libraries"]) ++ [v.arduino_libraries.getD i ""])
        = .ok (ard.getD i [])) ∧
    (∀ j, j < v.external_libraries.length →
      src_root w (expandedExternalHome w v ++ [v.external_libraries.getD j ""])
        = .ok (ext.getD j [])) ∧
    ([ corePath w v ++ ["hardware", "avr", v.core_version],
       corePath w v ++ ["variants", v.variant],
       avrGccHome w v ++ ["include"] ] ++ ard ++ ext).length
      = 3 + v.arduino_libraries.length + v.external_libraries.length := by
  have hlard := collectExcept_ok_length _ _ _ hard
  have hlext := collectExcept_ok_length _ _ _ hext
  refine ⟨?_, hlard, hlext, ?_, ?_, ?_⟩
  · simp [includeDirs, hard, hext, arduinoIncludes]
  · exact fun i hi => collectExcept_ok_getD _ "" [] _ _ hard i hi
  · exact fun j hj => collectExcept_ok_getD _ "" [] _ _ hext j hj
  · simp [hlard, hlext]
    omega

theorem includeDirs_exact_order_witness :
    includeDirs wAll (mkDesc ["Wire"] ["Foo"]) = .ok
      [ ["home", "packaged", "arduino", "hardware", "avr", "1.8.6",
         "hardware", "avr", "1.8.6"],
        ["home", "packaged", "arduino", "hardware", "avr", "1.8.6",
         "variants", "standard"],
        ["home", "packaged", "arduino", "tools", "avr-gcc", "7.3.0", "include"],
        ["home", "packaged", "arduino", "hardware", "avr", "1.8.6",
         "libraries", "Wire"],
        ["exthome", "Foo"] ] :=
  (includeDirs_exact_order wAll (mkDesc ["Wire"] ["Foo"])
    [["home", "packaged", "arduino", "hardware", "avr", "1.8.6", "libraries", "Wire"]]
    [["exthome", "Foo"]] rfl rfl).1

/-- C6: the compiler binary path is derived as
`<arduino_home>/packaged/arduino/tools/avr-gcc/<avr_gcc_version>/bin/avr-gcc`;
when both homes exist but that path does not, resolution fails with
`NoAvrGcc` carrying exactly that path, independently of the glob
primitive (no source discovery occurs). -/
theorem avr_gcc_missing_error (w : World) (v : ConfigSerialize)
    (g : String → Option (List (Except Unit FsPath)))
    (h1 : v.arduino_home.utf8 = true)
    (h2 : v.external_libraries_home.utf8 = true)
    (h3 : w.pathExists (expandedArduinoHome w v) = true)
    (h4 : w.pathExists (expandedExternalHome w v) = true)
    (h5 : w.pathExists (avrGccBin w v) = false) :
    tryFrom w v = Outcome.err (.NoAvrGcc (avrGccBin w v)) ∧
    avrGccBin w v = expandedArduinoHome w v
      ++ ["packaged", "arduino", "tools", "avr-gcc", v.avr_gcc_version, "bin", "avr-gcc"] ∧
    tryFrom { w with glob := g } v = Outcome.err (.NoAvrGcc (avrGccBin w v)) := by
  refine ⟨?_, ?_, ?_⟩
  · simp [tryFrom, h1, h2, h3, h4, h5]
  · simp [avrGccBin, avrGccHome, arduinoPackagePath]
  · rw [show tryFrom { w with glob := g } v = tryFrom w v from rfl]
    simp [tryFrom, h1, h2, h3, h4, h5]

theorem avr_gcc_missing_error_witness :
    tryFrom wNoGcc (mkDesc [] []) = Outcome.err
      (.NoAvrGcc ["home", "packaged", "arduino", "tools", "avr-gcc", "7.3.0",
        "bin", "avr-gcc"]) :=
  (avr_gcc_missing_error wNoGcc (mkDesc [] []) (fun _ => none)
    rfl rfl rfl rfl rfl).1

/-- C7: when the expanded `arduino_home` does not exist, resolution fails
with `ArduinoHomeNoExist` carrying the expanded path, with no hypothesis
on the toolchain binary or any library, and independently of the
directory-listing and glob primitives — so no toolchain existence check
outcome or library-root resolution affects it. -/
theorem arduino_home_missing_error (w : World) (v : ConfigSerialize)
    (rd : FsPath → Option (List String))
    (g : String → Option (List (Except Unit FsPath)))
    (h1 : v.arduino_home.utf8 = true)
    (h2 : v.external_libraries_home.utf8 = true)
    (h3 : w.pathExists (expandedArduinoHome w v) = false) :
    tryFrom w v = Outcome.err (.ArduinoHomeNoExist (expandedArduinoHome w v)) ∧
    tryFrom { w with readDir := rd, glob := g } v
      = Outcome.err (.ArduinoHomeNoExist (expandedArduinoHome w v)) := by
  constructor
  · simp [tryFrom, h1, h2, h3]
  · have hred : expandedArduinoHome { w with readDir := rd, glob := g } v
        = expandedArduinoHome w v := rfl
    simp [tryFrom, h1, h2, hred, h3]

theorem arduino_home_missing_error_witness :
    tryFrom wNoHome (mkDesc [] []) = Outcome.err (.ArduinoHomeNoExist ["home"]) :=
  (arduino_home_missing_error wNoHome (mkDesc [] []) (fun _ => none) (fun _ => none)
    rfl rfl rfl).1

/-- C8: source discovery never returns a path whose final component is
exactly `main.cpp`, for every world, include-directory list and pattern;
and a file whose name merely contains `main.cpp` as a substring
(`mymain.cpp`) is not excluded. -/
theorem get_type_excludes_main_cpp (w : World) (dirs : List FsPath)
    (pattern : String) (files : List FsPath) (p : FsPath)
    (hok : get_type w dirs pattern = .ok files) (hp : p ∈ files) :
    (p.getLast? == some "main.cpp") = false ∧
    get_type wSub [["d"]] "*.cpp" = .ok [["d", "mymain.cpp"]] :=
  ⟨get_type_no_main w pattern dirs files hok p hp, rfl⟩

theorem get_type_excludes_main_cpp_witness :
    ((["d", "sub", "util.cpp"] : FsPath).getLast? == some "main.cpp") = false ∧
    get_type wSub [["d"]] "*.cpp" = .ok [["d", "mymain.cpp"]] :=
  get_type_excludes_main_cpp wGlobMain [["d"]] "*.cpp"
    [["d", "sub", "util.cpp"]] ["d", "sub", "util.cpp"] rfl (by decide)

/-- C9: library-root resolution is fail-fast and Arduino-bundled
libraries are resolved before external ones: if the Arduino list splits
as `pre ++ bad :: post` with every root in `pre` resolving and `bad`
failing with `e`, resolution returns exactly `e` whatever `post` and the
external list hold; if all Arduino roots resolve and the external list
splits the same way at `bad'` with error `e'`, resolution returns exactly
`e'` whatever `post'` holds. -/
theorem tryFrom_fail_fast (w : World) (v : ConfigSerialize)
    (pre post pre' post' : List String) (bad bad' : String)
    (ard : List FsPath) (e e' : ConfigError)
    (h1 : v.arduino_home.utf8 = true)
    (h2 : v.external_libraries_home.utf8 = true)
    (h3 : w.pathExists (expandedArduinoHome w v) = true)
    (h4 : w.pathExists (expandedExternalHome w v) = true)
    (h5 : w.pathExists (avrGccBin w v) = true) :
    (v.arduino_libraries = pre ++ bad :: post →
      (∀ x ∈ pre, (src_root w ((corePath w v ++ ["libraries"]) ++ [x])).isOk = true) →
      src_root w ((corePath w v ++ ["libraries"]) ++ [bad]) = .error e →
      tryFrom w v = Outcome.err e) ∧
    (libraryRoots w (corePath w v ++ ["libraries"]) v.arduino_libraries = .ok ard →
      v.external_libraries = pre' ++ bad' :: post' →
      (∀ x ∈ pre', (src_root w (expandedExternalHome w v ++ [x])).isOk = true) →
      src_root w (expandedExternalHome w v ++ [bad']) = .error e' →
      tryFrom w v = Outcome.err e') := by
  constructor
  · intro hsplit hpre hbad
    have hroots : libraryRoots w (corePath w v ++ ["libraries"]) v.arduino_libraries
        = .error e := by
      rw [hsplit]
      exact collectExcept_first_error _ e pre bad post hpre hbad
    simp [tryFrom, h1, h2, h3, h4, h5, includeDirs, hroots]
  · intro hard hsplit hpre hbad
    have hroots : libraryRoots w (expandedExternalHome w v) v.external_libraries
        = .error e' := by
      rw [hsplit]
      exact collectExcept_first_error _ e' pre' bad' post' hpre hbad
    simp [tryFrom, h1, h2, h3, h4, h5, includeDirs, hard, hroots]

theorem tryFrom_fail_fast_witness :
    tryFrom wBadLib (mkDesc ["Bad", "Later"] []) = Outcome.err .IoError :=
  (tryFrom_fail_fast wBadLib (mkDesc ["Bad", "Later"] [])
    [] ["Later"] [] [] "Bad" "" [] .IoError .IoError
    rfl rfl rfl rfl rfl).1 rfl (by simp) rfl

/-- C10: `src_root` decides the markers from the children's names alone —
its result is unchanged between any two worlds with the same directory
listings, whatever their file-kind metadata says; in particular two plain
files named `src` and `utility` trigger the ambiguous-library error, and
a single plain file named `src` is returned as the root even though it is
not a directory. -/
theorem src_root_ignores_file_kind (w w' : World) (loc : FsPath)
    (h : w.readDir = w'.readDir) :
    src_root w loc = src_root w' loc ∧
    src_root wMarkerFiles ["base"] = .error (.MalformedLib ["base"]) ∧
    wMarkerFiles.isDir (["base"] ++ ["src"]) = false ∧
    wMarkerFiles.isDir (["base"] ++ ["utility"]) = false ∧
    src_root wSrcFile ["base"] = .ok ["base", "src"] ∧
    wSrcFile.isDir (["base"] ++ ["src"]) = false := by
  refine ⟨?_, rfl, rfl, rfl, rfl, rfl⟩
  simp only [src_root, h]

theorem src_root_ignores_file_kind_witness :
    src_root wMarkerFiles ["base"] = src_root wMarkerDirs ["base"] :=
  (src_root_ignores_file_kind wMarkerFiles wMarkerDirs ["base"] rfl).1

end Rarduino
